import Mathlib

/-
  Verification development for the TrendChart statistical engine.

  The repository contains two historical revisions of the engine module:
  - src/js/excelParser.js (here: namespace V1), whose getStats returns null
    for an empty sequence;
  - src/unnamed/part_001 (here: namespace V2), whose getStats coerces and
    filters its input through parseNumber and returns a zeroed result for an
    empty sequence.
  The statistical body of getStats (lines 72-123 of excelParser.js and lines
  147-198 of part_001) is textually identical in the two revisions; it is
  embedded once as statsCore, with the locals of the source body lifted to
  named definitions (jsMean, sumSqDiff, stdevOverall, stdevWithin,
  stdevBetween, capIndices, diffSum).

  Numbers are modelled as real numbers.  The capability-index divisions can
  divide by zero, which in the JS source yields Infinity, -Infinity or NaN, so
  their results are modelled by the type JsNum with an explicit division
  jsDiv and minimum jsMin mirroring IEEE division by (positive) zero and
  Math.min's NaN propagation.  Absent spec limits and absent indices (NaN /
  null in the source) are modelled as Option none.  The unused subgroupSize
  parameter of getStats is omitted.
-/

namespace TrendChart

/-- Result of a JS floating-point division as used by the capability-index
computations: either a finite real, a signed infinity, or NaN. -/
inductive JsNum where
  | nan : JsNum
  | posInf : JsNum
  | negInf : JsNum
  | fin : ℝ → JsNum

/-- JS division `a / b` for finite `a`, `b` with `b` a (positive) zero or a
nonzero real: `a / 0` is `+Infinity` for `a > 0`, `-Infinity` for `a < 0`,
and `NaN` for `a = 0`; otherwise the exact quotient.  All denominators the
engine divides by (`t/2`, `3*stdevWithin`, `6*stdevWithin`,
`3*stdevOverall`) are positive zeros when zero. -/
noncomputable def jsDiv (a b : ℝ) : JsNum :=
  if b = 0 then
    if a = 0 then .nan else if 0 < a then .posInf else .negInf
  else .fin (a / b)

/-- `Math.min` on the modelled JS numbers: NaN-propagating, with
`-Infinity` absorbing and `+Infinity` neutral. -/
def jsMin : JsNum → JsNum → JsNum
  | .nan, _ => .nan
  | _, .nan => .nan
  | .negInf, _ => .negInf
  | _, .negInf => .negInf
  | .posInf, y => y
  | x, .posInf => x
  | .fin x, .fin y => .fin (min x y)

/-- Specification limits: `usl`/`lsl` each either a finite number (`some`)
or the absent / not-a-number sentinel (`none`).  The `target` field is not
read by `getStats` and is omitted. -/
structure Specs where
  usl : Option ℝ
  lsl : Option ℝ

/-- The value object returned by `getStats` (source lines 119-123):
statistics as reals, capability indices as `none` (null) or a computed
`JsNum`. -/
structure StatisticsResult where
  mean : ℝ
  n : ℕ
  ca : Option JsNum
  cp : Option JsNum
  cpk : Option JsNum
  ppk : Option JsNum
  stdevOverall : ℝ
  stdevWithin : ℝ
  stdevBetween : ℝ
  ucl : ℝ
  lcl : ℝ

/-- The moving-range loop of `getStats` (lines 81-82):
`for (let i = 1; i < n; i++) diffSum += Math.abs(values[i] - values[i-1])`. -/
noncomputable def diffSum : List ℝ → ℝ
  | a :: b :: rest => |b - a| + diffSum (b :: rest)
  | _ => 0

/-- `mean = values.reduce((a, b) => a + b, 0) / n` (line 72). -/
noncomputable def jsMean (values : List ℝ) : ℝ :=
  values.sum / values.length

/-- `sumSqDiff = values.map(x => Math.pow(x - mean, 2)).reduce(...)`
(line 75). -/
noncomputable def sumSqDiff (values : List ℝ) : ℝ :=
  (values.map (fun x => (x - jsMean values) ^ 2)).sum

/-- `stdevOverall = n > 1 ? Math.sqrt(sumSqDiff / (n - 1)) : 0` (line 76). -/
noncomputable def stdevOverall (values : List ℝ) : ℝ :=
  if 1 < values.length then Real.sqrt (sumSqDiff values / ((values.length : ℝ) - 1))
  else 0

/-- `stdevWithin`: initialised to `stdevOverall`, and for `n > 1` replaced
by `(diffSum / (n - 1)) / d2` with `d2 = 1.128` (lines 79-85). -/
noncomputable def stdevWithin (values : List ℝ) : ℝ :=
  if 1 < values.length then diffSum values / ((values.length : ℝ) - 1) / 1.128
  else stdevOverall values

/-- `stdevBetween = Math.sqrt(Math.max(0, stdevOverall^2 - stdevWithin^2))`
(line 88). -/
noncomputable def stdevBetween (values : List ℝ) : ℝ :=
  Real.sqrt (max 0 (stdevOverall values ^ 2 - stdevWithin values ^ 2))

/-- The capability-index block of `getStats` (lines 91-113): the branch is
selected by `hasUSL = !isNaN(usl)` and `hasLSL = !isNaN(lsl)`; returns
`(ca, cp, cpk, ppk)`. -/
noncomputable def capIndices (mean so sw : ℝ) (specs : Specs) :
    Option JsNum × Option JsNum × Option JsNum × Option JsNum :=
  match specs.usl, specs.lsl with
  | some usl, some lsl =>
      let t := usl - lsl
      let u := (usl + lsl) / 2
      (some (jsDiv (mean - u) (t / 2)),
       some (jsDiv t (6 * sw)),
       some (jsMin (jsDiv (usl - mean) (3 * sw)) (jsDiv (mean - lsl) (3 * sw))),
       some (jsMin (jsDiv (usl - mean) (3 * so)) (jsDiv (mean - lsl) (3 * so))))
  | some usl, none =>
      (none, none,
       some (jsDiv (usl - mean) (3 * sw)),
       some (jsDiv (usl - mean) (3 * so)))
  | none, some lsl =>
      (none, none,
       some (jsDiv (mean - lsl) (3 * sw)),
       some (jsDiv (mean - lsl) (3 * so)))
  | none, none => (none, none, none, none)

/-- The statistical body shared verbatim by both revisions of `getStats`
(excelParser.js lines 72-123 and part_001 lines 147-198), evaluated on an
already-nonempty numeric sequence; includes the control limits
`ucl = mean + 3 * stdevWithin`, `lcl = mean - 3 * stdevWithin`. -/
noncomputable def statsCore (values : List ℝ) (specs : Specs) : StatisticsResult :=
  let inds := capIndices (jsMean values) (stdevOverall values) (stdevWithin values) specs
  ⟨jsMean values, values.length,
   inds.1, inds.2.1, inds.2.2.1, inds.2.2.2,
   stdevOverall values, stdevWithin values, stdevBetween values,
   jsMean values + 3 * stdevWithin values,
   jsMean values - 3 * stdevWithin values⟩

namespace V1

/-- `getStats` of src/js/excelParser.js (lines 68-124): for `n === 0` it
returns `null` (modelled as `none`), otherwise the computed result. -/
noncomputable def getStats (values : List ℝ) (specs : Specs) : Option StatisticsResult :=
  if values.length = 0 then none
  else some (statsCore values specs)

end V1

/-- A raw cell value as seen by part_001's `getStats` and `parseNumber`:
an (idealised, finite) number, a string, `undefined`, `null`, or a
boolean. -/
inductive JsVal where
  | num : ℝ → JsVal
  | str : String → JsVal
  | undef : JsVal
  | nullv : JsVal
  | boolv : Bool → JsVal

/-- The JS whitespace characters relevant to `trim` and `parseFloat`
skipping: space, tab, line feed, carriage return, vertical tab, form
feed. -/
def jsWhitespace (c : Char) : Bool :=
  c = ' ' || c = '\t' || c = '\n' || c = '\r' || c = '\x0b' || c = '\x0c'

/-- Decimal digit test (by code point, so that it reduces in the
kernel). -/
def isDigit (c : Char) : Bool := 48 ≤ c.toNat && c.toNat ≤ 57

/-- Value of a decimal digit character. -/
def digitVal (c : Char) : ℕ := c.toNat - 48

/-- Value of a string of decimal digits, most significant first. -/
def digitsVal (l : List Char) : ℕ :=
  l.foldl (fun a c => 10 * a + digitVal c) 0

/-- Syntactic decomposition of the decimal literal consumed by
`parseFloat`: sign, integer-part digits, fraction digits, exponent sign
and exponent digits (empty when no exponent part is consumed). -/
structure DecLit where
  neg : Bool
  ip : List Char
  fp : List Char
  eneg : Bool
  ed : List Char
deriving DecidableEq

/-- Result of JS `parseFloat`, kept syntactic so that it is decidable:
NaN (no parsable prefix), a signed `Infinity` literal, or a finite
decimal literal (its rational value is `litVal`). -/
inductive FloatParse where
  | nan : FloatParse
  | inf : Bool → FloatParse
  | lit : DecLit → FloatParse
deriving DecidableEq

/-- Parse an optional exponent part `[eE][+-]?digits` at the head of `l`;
`none` when there is no well-formed exponent (in which case `parseFloat`
does not consume it).  Returns (negative sign, digit characters). -/
def expDigits (l : List Char) : Option (Bool × List Char) :=
  match l with
  | c :: rest =>
      if c = 'e' ∨ c = 'E' then
        match rest with
        | '+' :: r2 =>
            let d := r2.takeWhile isDigit
            if d.isEmpty then none else some (false, d)
        | '-' :: r2 =>
            let d := r2.takeWhile isDigit
            if d.isEmpty then none else some (true, d)
        | r2 =>
            let d := r2.takeWhile isDigit
            if d.isEmpty then none else some (false, d)
      else none
  | [] => none

/-- Parse the unsigned decimal part of a `parseFloat` literal:
`digits [. digits] [exp]` or `. digits [exp]`; NaN when no digit is
found. -/
def parseUnsigned (neg : Bool) (l : List Char) : FloatParse :=
  let ip := l.takeWhile isDigit
  let rest := l.dropWhile isDigit
  match rest with
  | '.' :: rest2 =>
      let fp := rest2.takeWhile isDigit
      if ip.isEmpty && fp.isEmpty then .nan
      else
        match expDigits (rest2.dropWhile isDigit) with
        | none => .lit ⟨neg, ip, fp, false, []⟩
        | some (eneg, ed) => .lit ⟨neg, ip, fp, eneg, ed⟩
  | _ =>
      if ip.isEmpty then .nan
      else
        match expDigits rest with
        | none => .lit ⟨neg, ip, [], false, []⟩
        | some (eneg, ed) => .lit ⟨neg, ip, [], eneg, ed⟩

/-- The signed body of `parseFloat` after the optional sign character:
an `Infinity` literal or an unsigned decimal literal. -/
def jsParseSigned (neg : Bool) (l : List Char) : FloatParse :=
  if l.take 8 = "Infinity".toList then .inf neg else parseUnsigned neg l

/-- JS `parseFloat` on a character sequence: skip leading whitespace,
read an optional sign, then the longest valid decimal (or Infinity)
prefix; NaN when none exists. -/
def jsParseFloat (l : List Char) : FloatParse :=
  match l.dropWhile jsWhitespace with
  | '+' :: r => jsParseSigned false r
  | '-' :: r => jsParseSigned true r
  | r => jsParseSigned false r

/-- Exact rational value of a parsed decimal literal:
`sign * (intPart + fracPart / 10 ^ fracLen) * 10 ^ (± exponent)`
(supporting leading sign, decimal point and exponent notation). -/
def litVal (d : DecLit) : ℚ :=
  (if d.neg then -1 else 1) *
    ((digitsVal d.ip + (digitsVal d.fp : ℚ) / 10 ^ d.fp.length) *
      (if d.eneg then 1 / 10 ^ digitsVal d.ed else 10 ^ digitsVal d.ed))

/-- `val.replace(/[$,]/g, '')` of `parseNumber` (part_001 line 59):
remove every `$` and `,`. -/
def stripCurrency (s : String) : List Char :=
  s.toList.filter (fun c => c != '$' && c != ',')

/-- JS `String.prototype.trim`: drop whitespace from both ends. -/
def jsTrim (l : List Char) : List Char :=
  ((l.dropWhile jsWhitespace).reverse.dropWhile jsWhitespace).reverse

/-- The string path of `parseNumber` (part_001 lines 54-62) at the exact
rational level: empty string is falsy and yields NaN (`none`); otherwise
strip `$`/`,`, trim, `parseFloat`, and keep the result only when finite
(`isFinite(num) ? num : NaN`). -/
def parseNumberQ (s : String) : Option ℚ :=
  if s = "" then none
  else
    match jsParseFloat (jsTrim (stripCurrency s)) with
    | .lit d => some (litVal d)
    | _ => none

/-- `parseNumber` of src/unnamed/part_001 (lines 54-62), with the NaN
result modelled as `none`: a number is returned unchanged; a non-string
or falsy value yields NaN; a nonempty string is cleaned and parsed. -/
noncomputable def parseNumber : JsVal → Option ℝ
  | .num x => some x
  | .str s => (parseNumberQ s).map (fun q => (q : ℝ))
  | _ => none

namespace V2

/-- `getStats` of src/unnamed/part_001 (lines 135-199): the raw values
are first coerced (`typeof v === 'number' ? v : parseNumber(v)`) and
filtered (`!isNaN(v)`), modelled by `filterMap parseNumber`; `n === 0`
returns the zeroed result object (lines 141-145); otherwise the body is
the same as V1's. -/
noncomputable def getStats (values : List JsVal) (specs : Specs) : StatisticsResult :=
  let validValues := values.filterMap parseNumber
  if validValues.length = 0 then
    ⟨0, 0, none, none, none, none, 0, 0, 0, 0, 0⟩
  else statsCore validValues specs

end V2

/-- `normDist` of src/js/excelParser.js (lines 129-133) and part_001
(lines 204-208): the Gaussian density, with the `stdDev === 0` guard
returning 0. -/
noncomputable def normDist (x mean stdDev : ℝ) : ℝ :=
  if stdDev = 0 then 0
  else (1 / (stdDev * Real.sqrt (2 * Real.pi))) *
    Real.exp (-(x - mean) ^ 2 / (2 * stdDev ^ 2))

/- ------------------------------------------------------------------ -/
/- Helper lemmas                                                       -/
/- ------------------------------------------------------------------ -/

lemma getStats_core {vs : List ℝ} {specs : Specs} {r : StatisticsResult}
    (h : V1.getStats vs specs = some r) : r = statsCore vs specs := by
  by_cases hv : vs.length = 0
  · simp [V1.getStats, hv] at h
  · simp [V1.getStats, hv] at h
    exact h.symm

lemma getStats_some {vs : List ℝ} (h : vs ≠ []) (specs : Specs) :
    V1.getStats vs specs = some (statsCore vs specs) := by
  simp [V1.getStats, List.length_eq_zero, h]

@[simp] lemma statsCore_mean (vs : List ℝ) (specs : Specs) :
    (statsCore vs specs).mean = jsMean vs := rfl

@[simp] lemma statsCore_n (vs : List ℝ) (specs : Specs) :
    (statsCore vs specs).n = vs.length := rfl

@[simp] lemma statsCore_stdevOverall (vs : List ℝ) (specs : Specs) :
    (statsCore vs specs).stdevOverall = stdevOverall vs := rfl

@[simp] lemma statsCore_stdevWithin (vs : List ℝ) (specs : Specs) :
    (statsCore vs specs).stdevWithin = stdevWithin vs := rfl

@[simp] lemma statsCore_stdevBetween (vs : List ℝ) (specs : Specs) :
    (statsCore vs specs).stdevBetween = stdevBetween vs := rfl

@[simp] lemma statsCore_ucl (vs : List ℝ) (specs : Specs) :
    (statsCore vs specs).ucl = jsMean vs + 3 * stdevWithin vs := rfl

@[simp] lemma statsCore_lcl (vs : List ℝ) (specs : Specs) :
    (statsCore vs specs).lcl = jsMean vs - 3 * stdevWithin vs := rfl

@[simp] lemma statsCore_ca (vs : List ℝ) (specs : Specs) :
    (statsCore vs specs).ca =
      (capIndices (jsMean vs) (stdevOverall vs) (stdevWithin vs) specs).1 := rfl

@[simp] lemma statsCore_cp (vs : List ℝ) (specs : Specs) :
    (statsCore vs specs).cp =
      (capIndices (jsMean vs) (stdevOverall vs) (stdevWithin vs) specs).2.1 := rfl

@[simp] lemma statsCore_cpk (vs : List ℝ) (specs : Specs) :
    (statsCore vs specs).cpk =
      (capIndices (jsMean vs) (stdevOverall vs) (stdevWithin vs) specs).2.2.1 := rfl

@[simp] lemma statsCore_ppk (vs : List ℝ) (specs : Specs) :
    (statsCore vs specs).ppk =
      (capIndices (jsMean vs) (stdevOverall vs) (stdevWithin vs) specs).2.2.2 := rfl

@[simp] lemma capIndices_both (m so sw u l : ℝ) :
    capIndices m so sw ⟨some u, some l⟩ =
      (some (jsDiv (m - (u + l) / 2) ((u - l) / 2)),
       some (jsDiv (u - l) (6 * sw)),
       some (jsMin (jsDiv (u - m) (3 * sw)) (jsDiv (m - l) (3 * sw))),
       some (jsMin (jsDiv (u - m) (3 * so)) (jsDiv (m - l) (3 * so)))) := rfl

@[simp] lemma capIndices_uslOnly (m so sw u : ℝ) :
    capIndices m so sw ⟨some u, none⟩ =
      (none, none, some (jsDiv (u - m) (3 * sw)), some (jsDiv (u - m) (3 * so))) := rfl

@[simp] lemma capIndices_lslOnly (m so sw l : ℝ) :
    capIndices m so sw ⟨none, some l⟩ =
      (none, none, some (jsDiv (m - l) (3 * sw)), some (jsDiv (m - l) (3 * so))) := rfl

@[simp] lemma capIndices_neither (m so sw : ℝ) :
    capIndices m so sw ⟨none, none⟩ = (none, none, none, none) := rfl

lemma jsMin_self (x : JsNum) : jsMin x x = x := by
  cases x <;> simp [jsMin]

@[simp] lemma parseNumber_num (x : ℝ) : parseNumber (.num x) = some x := rfl

lemma filterMap_parseNumber_num (vs : List ℝ) :
    (vs.map JsVal.num).filterMap parseNumber = vs := by
  induction vs with
  | nil => rfl
  | cons a t ih => simp [ih]

lemma diffSum_eq (vs : List ℝ) :
    diffSum vs = ∑ i ∈ Finset.range (vs.length - 1),
      |vs.getD (i + 1) 0 - vs.getD i 0| := by
  induction vs with
  | nil => simp [diffSum]
  | cons a t ih =>
    cases t with
    | nil => simp [diffSum]
    | cons b u =>
      rw [show diffSum (a :: b :: u) = |b - a| + diffSum (b :: u) from rfl, ih]
      rw [show (a :: b :: u : List ℝ).length - 1 = ((b :: u : List ℝ).length - 1) + 1
        by simp]
      rw [Finset.sum_range_succ']
      have h1 : ∀ i : ℕ,
          |(a :: b :: u : List ℝ).getD (i + 1 + 1) 0 - (a :: b :: u).getD (i + 1) 0|
            = |(b :: u : List ℝ).getD (i + 1) 0 - (b :: u).getD i 0| := by
        intro i
        simp only [List.getD_cons_succ]
      simp only [h1, List.getD_cons_succ, List.getD_cons_zero]
      exact add_comm _ _

@[simp] lemma jsMean_single (x : ℝ) : jsMean [x] = x := by
  simp [jsMean]

@[simp] lemma stdevOverall_single (x : ℝ) : stdevOverall [x] = 0 := by
  simp [stdevOverall]

@[simp] lemma stdevWithin_single (x : ℝ) : stdevWithin [x] = 0 := by
  simp [stdevWithin, stdevOverall]

/- ------------------------------------------------------------------ -/
/- Claims                                                              -/
/- ------------------------------------------------------------------ -/

/-- C1 counterexample: the claim as stated is false for the
src/js/excelParser.js revision of getStats, which returns null (modelled
`none`) on the empty observation sequence rather than a zeroed
StatisticsResult. -/
theorem claim_C1_counterexample :
    V1.getStats ([] : List ℝ) ⟨none, none⟩ = none := rfl

/-- C1 (amended): for the empty observation sequence and any specs, the
part_001 revision of getStats returns the zeroed StatisticsResult
(mean 0, n 0, all standard deviations 0, ca/cp/cpk/ppk absent,
ucl = lcl = 0), not an error; the src/js/excelParser.js revision instead
returns null. -/
theorem claim_C1 (specs : Specs) :
    V2.getStats [] specs = ⟨0, 0, none, none, none, none, 0, 0, 0, 0, 0⟩ ∧
    V1.getStats ([] : List ℝ) specs = none :=
  ⟨rfl, rfl⟩

/-- C1 witness: the empty-sequence behaviour at the concrete specs with
no limits. -/
theorem claim_C1_witness :
    V2.getStats [] ⟨none, none⟩ = ⟨0, 0, none, none, none, none, 0, 0, 0, 0, 0⟩ ∧
    V1.getStats ([] : List ℝ) ⟨none, none⟩ = none :=
  claim_C1 ⟨none, none⟩

/-- C3: for every sequence with n > 1, getStats sets stdevWithin to the
sum of absolute successive differences divided by n - 1 and by the d2
constant 1.128; in particular on [10, 12, 11, 13, 9] with no specs the
result has mean 11, n 5, stdevOverall sqrt(10/4),
stdevWithin 2.25/1.128, all capability indices absent, and
ucl, lcl = 11 ± 3·(2.25/1.128). -/
theorem claim_C3 :
    (∀ (vs : List ℝ) (specs : Specs) (r : StatisticsResult),
        1 < vs.length → V1.getStats vs specs = some r →
        r.stdevWithin =
          (∑ i ∈ Finset.range (vs.length - 1), |vs.getD (i + 1) 0 - vs.getD i 0|) /
            ((vs.length : ℝ) - 1) / 1.128) ∧
    ∀ r : StatisticsResult,
      V1.getStats [10, 12, 11, 13, 9] ⟨none, none⟩ = some r →
      r.mean = 11 ∧ r.n = 5 ∧ r.stdevOverall = Real.sqrt (10 / 4) ∧
      r.stdevWithin = 2.25 / 1.128 ∧ r.ca = none ∧ r.cp = none ∧
      r.cpk = none ∧ r.ppk = none ∧
      r.ucl = 11 + 3 * (2.25 / 1.128) ∧ r.lcl = 11 - 3 * (2.25 / 1.128) := by
  have hm : jsMean [(10 : ℝ), 12, 11, 13, 9] = 11 := by
    norm_num [jsMean]
  have hd : diffSum [(10 : ℝ), 12, 11, 13, 9] = 9 := by
    simp only [diffSum]
    rw [show (12 : ℝ) - 10 = 2 by norm_num, show (11 : ℝ) - 12 = -1 by norm_num,
      show (13 : ℝ) - 11 = 2 by norm_num, show (9 : ℝ) - 13 = -4 by norm_num]
    rw [abs_neg, abs_neg]
    norm_num [abs_of_pos]
  have hss : sumSqDiff [(10 : ℝ), 12, 11, 13, 9] = 10 := by
    norm_num [sumSqDiff, hm]
  have hso : stdevOverall [(10 : ℝ), 12, 11, 13, 9] = Real.sqrt (10 / 4) := by
    rw [stdevOverall, if_pos (by norm_num), hss]
    norm_num
  have hsw : stdevWithin [(10 : ℝ), 12, 11, 13, 9] = 2.25 / 1.128 := by
    rw [stdevWithin, if_pos (by norm_num), hd]
    norm_num
  constructor
  · intro vs specs r hn h
    obtain rfl := getStats_core h
    rw [statsCore_stdevWithin, stdevWithin, if_pos hn, diffSum_eq]
  · intro r h
    obtain rfl := getStats_core h
    exact ⟨by rw [statsCore_mean, hm], by simp, by rw [statsCore_stdevOverall, hso],
      by rw [statsCore_stdevWithin, hsw], by simp, by simp, by simp, by simp,
      by rw [statsCore_ucl, hm, hsw], by rw [statsCore_lcl, hm, hsw]⟩

/-- C3 witness: the moving-range formula and the scenario instantiated on
the concrete sequence [10, 12, 11, 13, 9]. -/
theorem claim_C3_witness :
    1 < ([(10 : ℝ), 12, 11, 13, 9] : List ℝ).length ∧
    (statsCore [(10 : ℝ), 12, 11, 13, 9] ⟨none, none⟩).stdevWithin =
      (∑ i ∈ Finset.range (([(10 : ℝ), 12, 11, 13, 9] : List ℝ).length - 1),
        |([(10 : ℝ), 12, 11, 13, 9] : List ℝ).getD (i + 1) 0 -
          ([(10 : ℝ), 12, 11, 13, 9] : List ℝ).getD i 0|) /
        ((([(10 : ℝ), 12, 11, 13, 9] : List ℝ).length : ℝ) - 1) / 1.128 ∧
    (statsCore [(10 : ℝ), 12, 11, 13, 9] ⟨none, none⟩).mean = 11 :=
  ⟨by norm_num,
   claim_C3.1 [(10 : ℝ), 12, 11, 13, 9] ⟨none, none⟩ _ (by norm_num) rfl,
   (claim_C3.2 _ rfl).1⟩

/-- C4: for every numeric sequence and any specs, in both revisions the
returned result satisfies
`stdevBetween = sqrt (max 0 (stdevOverall^2 - stdevWithin^2))`, hence
`stdevBetween ≥ 0` always. -/
theorem claim_C4 :
    (∀ (vs : List ℝ) (specs : Specs) (r : StatisticsResult),
        V1.getStats vs specs = some r →
        r.stdevBetween = Real.sqrt (max 0 (r.stdevOverall ^ 2 - r.stdevWithin ^ 2)) ∧
        0 ≤ r.stdevBetween) ∧
    (∀ (raws : List JsVal) (specs : Specs),
        (V2.getStats raws specs).stdevBetween =
          Real.sqrt (max 0 ((V2.getStats raws specs).stdevOverall ^ 2 -
            (V2.getStats raws specs).stdevWithin ^ 2)) ∧
        0 ≤ (V2.getStats raws specs).stdevBetween) := by
  constructor
  · intro vs specs r h
    obtain rfl := getStats_core h
    exact ⟨rfl, Real.sqrt_nonneg _⟩
  · intro raws specs
    by_cases h : (raws.filterMap parseNumber).length = 0
    · simp [V2.getStats, h]
    · simp only [V2.getStats, if_neg h]
      exact ⟨rfl, Real.sqrt_nonneg _⟩

/-- C4 witness: the invariant instantiated on the concrete sequence
[1, 2] with no specs. -/
theorem claim_C4_witness :
    (statsCore [(1 : ℝ), 2] ⟨none, none⟩).stdevBetween =
      Real.sqrt (max 0 ((statsCore [(1 : ℝ), 2] ⟨none, none⟩).stdevOverall ^ 2 -
        (statsCore [(1 : ℝ), 2] ⟨none, none⟩).stdevWithin ^ 2)) ∧
    0 ≤ (statsCore [(1 : ℝ), 2] ⟨none, none⟩).stdevBetween :=
  claim_C4.1 [(1 : ℝ), 2] ⟨none, none⟩ _ rfl

/-- C7: whenever getStats (either revision) computes a result from a
sequence with at most one retained observation, the result has
`stdevOverall = 0` and `stdevWithin = stdevOverall`. -/
theorem claim_C7 :
    (∀ (vs : List ℝ) (specs : Specs) (r : StatisticsResult),
        vs.length ≤ 1 → V1.getStats vs specs = some r →
        r.stdevOverall = 0 ∧ r.stdevWithin = r.stdevOverall) ∧
    (∀ (raws : List JsVal) (specs : Specs),
        (raws.filterMap parseNumber).length ≤ 1 →
        (V2.getStats raws specs).stdevOverall = 0 ∧
        (V2.getStats raws specs).stdevWithin = (V2.getStats raws specs).stdevOverall) := by
  have key : ∀ vs : List ℝ, vs.length ≤ 1 →
      stdevOverall vs = 0 ∧ stdevWithin vs = stdevOverall vs := by
    intro vs hv
    have h1 : ¬ 1 < vs.length := by omega
    constructor
    · simp [stdevOverall, h1]
    · simp [stdevWithin, h1]
  constructor
  · intro vs specs r hv h
    obtain rfl := getStats_core h
    simpa using key vs hv
  · intro raws specs hv
    by_cases h : (raws.filterMap parseNumber).length = 0
    · simp [V2.getStats, h]
    · simp only [V2.getStats, if_neg h]
      simpa using key _ hv

/-- C7 witness: the single-observation sequence [5]. -/
theorem claim_C7_witness :
    (statsCore [(5 : ℝ)] ⟨none, none⟩).stdevOverall = 0 ∧
    (statsCore [(5 : ℝ)] ⟨none, none⟩).stdevWithin =
      (statsCore [(5 : ℝ)] ⟨none, none⟩).stdevOverall :=
  claim_C7.1 [(5 : ℝ)] ⟨none, none⟩ _ (by norm_num) rfl

/-- C8: normDist equals the Gaussian probability density for every
nonzero stdDev, and returns exactly 0 when stdDev = 0. -/
theorem claim_C8 :
    (∀ x mean stdDev : ℝ, stdDev ≠ 0 →
        normDist x mean stdDev =
          (1 / (stdDev * Real.sqrt (2 * Real.pi))) *
            Real.exp (-(x - mean) ^ 2 / (2 * stdDev ^ 2))) ∧
    (∀ x mean : ℝ, normDist x mean 0 = 0) := by
  refine ⟨fun x mean stdDev h => ?_, fun x mean => ?_⟩
  · rw [normDist, if_neg h]
  · rw [normDist, if_pos rfl]

/-- C8 witness: the Gaussian formula instantiated at
x = 0, mean = 0, stdDev = 1. -/
theorem claim_C8_witness :
    (1 : ℝ) ≠ 0 ∧
    normDist 0 0 1 = (1 / (1 * Real.sqrt (2 * Real.pi))) *
      Real.exp (-((0 : ℝ) - 0) ^ 2 / (2 * 1 ^ 2)) :=
  ⟨one_ne_zero, claim_C8.1 0 0 1 one_ne_zero⟩

/-- C10: the two historical revisions of getStats agree field-for-field
on every nonempty sequence of (finite) numbers and every specs object:
the excelParser.js revision returns exactly the part_001 revision's
result wrapped in `some`. -/
theorem claim_C10 (vs : List ℝ) (h : vs ≠ []) (specs : Specs) :
    V1.getStats vs specs = some (V2.getStats (vs.map JsVal.num) specs) := by
  have hv := filterMap_parseNumber_num vs
  have hl : ¬ vs.length = 0 := by
    simpa [List.length_eq_zero] using h
  simp only [V1.getStats, V2.getStats, hv, if_neg hl]

/-- C2: the capability-index branch of getStats is selected solely by
which spec limits are present: with both limits, ca, cp, cpk, ppk follow
the double-sided formulas; with one limit, only cpk and ppk are computed
from the corresponding one-sided ratio and ca, cp are absent; with
neither limit all four are absent (never zero).  Divisions are the JS
divisions `jsDiv`, which agree with exact real division whenever the
denominator is nonzero (first conjunct). -/
theorem claim_C2 :
    (∀ a b : ℝ, b ≠ 0 → jsDiv a b = JsNum.fin (a / b)) ∧
    ∀ (vs : List ℝ) (specs : Specs) (r : StatisticsResult),
      V1.getStats vs specs = some r →
      ((∀ usl lsl : ℝ, specs.usl = some usl → specs.lsl = some lsl →
          r.ca = some (jsDiv (r.mean - (usl + lsl) / 2) ((usl - lsl) / 2)) ∧
          r.cp = some (jsDiv (usl - lsl) (6 * r.stdevWithin)) ∧
          r.cpk = some (jsMin (jsDiv (usl - r.mean) (3 * r.stdevWithin))
            (jsDiv (r.mean - lsl) (3 * r.stdevWithin))) ∧
          r.ppk = some (jsMin (jsDiv (usl - r.mean) (3 * r.stdevOverall))
            (jsDiv (r.mean - lsl) (3 * r.stdevOverall)))) ∧
        (∀ usl : ℝ, specs.usl = some usl → specs.lsl = none →
          r.cpk = some (jsDiv (usl - r.mean) (3 * r.stdevWithin)) ∧
          r.ppk = some (jsDiv (usl - r.mean) (3 * r.stdevOverall)) ∧
          r.ca = none ∧ r.cp = none) ∧
        (∀ lsl : ℝ, specs.usl = none → specs.lsl = some lsl →
          r.cpk = some (jsDiv (r.mean - lsl) (3 * r.stdevWithin)) ∧
          r.ppk = some (jsDiv (r.mean - lsl) (3 * r.stdevOverall)) ∧
          r.ca = none ∧ r.cp = none) ∧
        (specs.usl = none → specs.lsl = none →
          r.ca = none ∧ r.cp = none ∧ r.cpk = none ∧ r.ppk = none)) := by
  constructor
  · intro a b hb
    rw [jsDiv, if_neg hb]
  · intro vs specs r h
    obtain rfl := getStats_core h
    obtain ⟨ou, ol⟩ := specs
    refine ⟨?_, ?_, ?_, ?_⟩
    · rintro usl lsl rfl rfl
      simp
    · rintro usl rfl rfl
      simp
    · rintro lsl rfl rfl
      simp
    · rintro rfl rfl
      simp

/-- C2 witness: the division fact at 1/2 and the USL-only branch on the
concrete sequence [1, 2, 4] with usl = 10. -/
theorem claim_C2_witness :
    ((2 : ℝ) ≠ 0 ∧ jsDiv 1 2 = JsNum.fin (1 / 2)) ∧
    (statsCore [(1 : ℝ), 2, 4] ⟨some 10, none⟩).cpk =
      some (jsDiv (10 - (statsCore [(1 : ℝ), 2, 4] ⟨some 10, none⟩).mean)
        (3 * (statsCore [(1 : ℝ), 2, 4] ⟨some 10, none⟩).stdevWithin)) :=
  ⟨⟨two_ne_zero, claim_C2.1 1 2 two_ne_zero⟩,
   ((claim_C2.2 [(1 : ℝ), 2, 4] ⟨some 10, none⟩ _ rfl).2.1 10 rfl rfl).1⟩

/-- C5 counterexample: the claim's general clause fails: with
stdevWithin = 0 a capability-index division whose numerator is also zero
yields NaN, not ±Infinity — concretely for values = [100] with
usl = 100 and lsl = 90 the returned cpk is NaN. -/
theorem claim_C5_counterexample :
    (V1.getStats [(100 : ℝ)] ⟨some 100, some 90⟩).map StatisticsResult.stdevWithin =
      some 0 ∧
    (V1.getStats [(100 : ℝ)] ⟨some 100, some 90⟩).map StatisticsResult.cpk =
      some (some JsNum.nan) := by
  rw [show V1.getStats [(100 : ℝ)] ⟨some 100, some 90⟩ =
    some (statsCore [(100 : ℝ)] ⟨some 100, some 90⟩) from rfl]
  constructor
  · simp
  · simp only [Option.map_some', statsCore_cpk, capIndices_both, jsMean_single,
      stdevWithin_single, mul_zero]
    rw [show (100 : ℝ) - 100 = 0 by norm_num, show (100 : ℝ) - 90 = 10 by norm_num]
    rw [jsDiv, if_pos rfl, if_pos rfl, jsDiv, if_pos rfl, if_neg (by norm_num),
      if_pos (by norm_num)]
    rfl

/-- C5 (amended): when stdevWithin or stdevOverall is exactly zero, a
capability-index division with nonzero numerator yields +Infinity or
-Infinity by the numerator's sign, and NaN when the numerator is also
zero; specifically for values = [100], usl = 110, lsl = 90 the result has
n = 1, mean = 100, stdevOverall = 0, stdevWithin = 0, cp = +Infinity,
cpk = +Infinity, and ca = 0. -/
theorem claim_C5 :
    (∀ x u : ℝ, x < u →
        (V1.getStats [x] ⟨some u, none⟩).map StatisticsResult.cpk =
          some (some JsNum.posInf) ∧
        (V1.getStats [x] ⟨some u, none⟩).map StatisticsResult.ppk =
          some (some JsNum.posInf)) ∧
    (∀ x u : ℝ, u < x →
        (V1.getStats [x] ⟨some u, none⟩).map StatisticsResult.cpk =
          some (some JsNum.negInf) ∧
        (V1.getStats [x] ⟨some u, none⟩).map StatisticsResult.ppk =
          some (some JsNum.negInf)) ∧
    (∀ x : ℝ,
        (V1.getStats [x] ⟨some x, none⟩).map StatisticsResult.cpk =
          some (some JsNum.nan)) ∧
    ((V1.getStats [(100 : ℝ)] ⟨some 110, some 90⟩).map StatisticsResult.n = some 1 ∧
     (V1.getStats [(100 : ℝ)] ⟨some 110, some 90⟩).map StatisticsResult.mean =
       some 100 ∧
     (V1.getStats [(100 : ℝ)] ⟨some 110, some 90⟩).map StatisticsResult.stdevOverall =
       some 0 ∧
     (V1.getStats [(100 : ℝ)] ⟨some 110, some 90⟩).map StatisticsResult.stdevWithin =
       some 0 ∧
     (V1.getStats [(100 : ℝ)] ⟨some 110, some 90⟩).map StatisticsResult.cp =
       some (some JsNum.posInf) ∧
     (V1.getStats [(100 : ℝ)] ⟨some 110, some 90⟩).map StatisticsResult.cpk =
       some (some JsNum.posInf) ∧
     (V1.getStats [(100 : ℝ)] ⟨some 110, some 90⟩).map StatisticsResult.ca =
       some (some (JsNum.fin 0))) := by
  have base : ∀ (x : ℝ) (sp : Specs), V1.getStats [x] sp = some (statsCore [x] sp) :=
    fun x sp => rfl
  refine ⟨?_, ?_, ?_, ?_⟩
  · intro x u h
    rw [base]
    constructor
    · simp only [Option.map_some', statsCore_cpk, capIndices_uslOnly, jsMean_single,
        stdevWithin_single, mul_zero]
      rw [jsDiv, if_pos rfl, if_neg (sub_ne_zero.mpr (ne_of_gt h)),
        if_pos (sub_pos.mpr h)]
    · simp only [Option.map_some', statsCore_ppk, capIndices_uslOnly, jsMean_single,
        stdevOverall_single, mul_zero]
      rw [jsDiv, if_pos rfl, if_neg (sub_ne_zero.mpr (ne_of_gt h)),
        if_pos (sub_pos.mpr h)]
  · intro x u h
    rw [base]
    constructor
    · simp only [Option.map_some', statsCore_cpk, capIndices_uslOnly, jsMean_single,
        stdevWithin_single, mul_zero]
      rw [jsDiv, if_pos rfl, if_neg (sub_ne_zero.mpr (ne_of_lt h)),
        if_neg (not_lt.mpr (le_of_lt (sub_neg.mpr h)))]
    · simp only [Option.map_some', statsCore_ppk, capIndices_uslOnly, jsMean_single,
        stdevOverall_single, mul_zero]
      rw [jsDiv, if_pos rfl, if_neg (sub_ne_zero.mpr (ne_of_lt h)),
        if_neg (not_lt.mpr (le_of_lt (sub_neg.mpr h)))]
  · intro x
    rw [base]
    simp only [Option.map_some', statsCore_cpk, capIndices_uslOnly, jsMean_single,
      stdevWithin_single, mul_zero, sub_self]
    rw [jsDiv, if_pos rfl, if_pos rfl]
  · rw [base]
    refine ⟨by simp, by simp, by simp, by simp, ?_, ?_, ?_⟩
    · simp only [Option.map_some', statsCore_cp, capIndices_both, jsMean_single,
        stdevWithin_single, mul_zero]
      rw [show (110 : ℝ) - 90 = 20 by norm_num]
      rw [jsDiv, if_pos rfl, if_neg (by norm_num), if_pos (by norm_num)]
    · simp only [Option.map_some', statsCore_cpk, capIndices_both, jsMean_single,
        stdevWithin_single, mul_zero]
      rw [show (110 : ℝ) - 100 = 10 by norm_num, show (100 : ℝ) - 90 = 10 by norm_num]
      rw [jsDiv, if_pos rfl, if_neg (by norm_num), if_pos (by norm_num)]
      rfl
    · simp only [Option.map_some', statsCore_ca, capIndices_both, jsMean_single]
      rw [show (100 : ℝ) - (110 + 90) / 2 = 0 by norm_num,
        show ((110 : ℝ) - 90) / 2 = 10 by norm_num]
      rw [jsDiv, if_neg (by norm_num), zero_div]

/-- C5 witness: the positive-numerator infinity case instantiated at
values = [0] with usl = 1. -/
theorem claim_C5_witness :
    (0 : ℝ) < 1 ∧
    (V1.getStats [(0 : ℝ)] ⟨some 1, none⟩).map StatisticsResult.cpk =
      some (some JsNum.posInf) :=
  ⟨by norm_num, (claim_C5.1 0 1 (by norm_num)).1⟩

/-- C6: parseNumber returns already-numeric input unchanged; returns the
not-a-number sentinel (`none`) for undefined, null, boolean and empty
inputs; and otherwise strips `$` and `,` and surrounding whitespace and
parses the remainder as a decimal literal, returning its value exactly
when the parse is finite; in particular "$1,234.50" parses to 1234.5,
"abc" to the sentinel, and 42 to 42. -/
theorem claim_C6 :
    (∀ x : ℝ, parseNumber (.num x) = some x) ∧
    parseNumber .undef = none ∧
    parseNumber .nullv = none ∧
    (∀ b : Bool, parseNumber (.boolv b) = none) ∧
    parseNumber (.str "") = none ∧
    (∀ s : String, s ≠ "" →
      parseNumber (.str s) =
        match jsParseFloat (jsTrim (stripCurrency s)) with
        | .lit d => some ((litVal d : ℝ))
        | _ => none) ∧
    parseNumber (.str "$1,234.50") = some (1234.5 : ℝ) ∧
    parseNumber (.str "abc") = none ∧
    parseNumber (.num 42) = some 42 := by
  have hgen : ∀ s : String, s ≠ "" →
      parseNumber (.str s) =
        match jsParseFloat (jsTrim (stripCurrency s)) with
        | .lit d => some ((litVal d : ℝ))
        | _ => none := by
    intro s hs
    rw [show parseNumber (.str s) = (parseNumberQ s).map (fun q => (q : ℝ)) from rfl,
      parseNumberQ, if_neg hs]
    cases jsParseFloat (jsTrim (stripCurrency s)) <;> rfl
  refine ⟨fun x => rfl, rfl, rfl, fun b => rfl, ?_, hgen, ?_, ?_, rfl⟩
  · rw [show parseNumber (.str "") = (parseNumberQ "").map (fun q => (q : ℝ)) from rfl,
      parseNumberQ, if_pos rfl]
    rfl
  · have h : jsParseFloat (jsTrim (stripCurrency "$1,234.50")) =
        .lit ⟨false, ['1', '2', '3', '4'], ['5', '0'], false, []⟩ := by decide
    rw [hgen _ (by decide), h]
    have h1 : digitsVal ['1', '2', '3', '4'] = 1234 := by decide
    have h2 : digitsVal ['5', '0'] = 50 := by decide
    have h3 : digitsVal ([] : List Char) = 0 := by decide
    simp only [litVal, h1, h2, h3]
    norm_num
  · have h : jsParseFloat (jsTrim (stripCurrency "abc")) = .nan := by decide
    rw [hgen _ (by decide), h]

/-- C6 witness: the strip-and-parse clause instantiated at the nonempty
string "1". -/
theorem claim_C6_witness :
    ("1" : String) ≠ "" ∧
    parseNumber (.str "1") =
      match jsParseFloat (jsTrim (stripCurrency "1")) with
      | .lit d => some ((litVal d : ℝ))
      | _ => none :=
  ⟨by decide, (claim_C6.2.2.2.2.2.1) "1" (by decide)⟩

/-- C9: feeding a no-spec result's ucl/lcl back into a second computation
over the same data makes both arguments of the cpk (resp. ppk) minimum
coincide, so the second result's cpk and ppk are exactly the
single-sided-spec branch formulas applied to the synthetic limits, on
either side. -/
theorem claim_C9 (vs : List ℝ) (S S2 : StatisticsResult)
    (hS : V1.getStats vs ⟨none, none⟩ = some S)
    (hS2 : V1.getStats vs ⟨some S.ucl, some S.lcl⟩ = some S2) :
    S2.cpk = some (jsDiv (S.ucl - S.mean) (3 * S.stdevWithin)) ∧
    S2.cpk = some (jsDiv (S.mean - S.lcl) (3 * S.stdevWithin)) ∧
    S2.ppk = some (jsDiv (S.ucl - S.mean) (3 * S.stdevOverall)) ∧
    S2.ppk = some (jsDiv (S.mean - S.lcl) (3 * S.stdevOverall)) := by
  obtain rfl := getStats_core hS
  obtain rfl := getStats_core hS2
  simp only [statsCore_cpk, statsCore_ppk, statsCore_ucl, statsCore_lcl,
    statsCore_mean, statsCore_stdevWithin, statsCore_stdevOverall, capIndices_both]
  rw [show jsMean vs + 3 * stdevWithin vs - jsMean vs = 3 * stdevWithin vs by ring,
      show jsMean vs - (jsMean vs - 3 * stdevWithin vs) = 3 * stdevWithin vs by ring]
  exact ⟨by rw [jsMin_self], by rw [jsMin_self], by rw [jsMin_self], by rw [jsMin_self]⟩

/-- C9 witness: the round-trip on the concrete sequence [1, 2]. -/
theorem claim_C9_witness :
    (statsCore [(1 : ℝ), 2]
        ⟨some (statsCore [(1 : ℝ), 2] ⟨none, none⟩).ucl,
         some (statsCore [(1 : ℝ), 2] ⟨none, none⟩).lcl⟩).cpk =
      some (jsDiv ((statsCore [(1 : ℝ), 2] ⟨none, none⟩).ucl -
          (statsCore [(1 : ℝ), 2] ⟨none, none⟩).mean)
        (3 * (statsCore [(1 : ℝ), 2] ⟨none, none⟩).stdevWithin)) :=
  (claim_C9 [(1 : ℝ), 2] _ _ rfl rfl).1

/-- C10 witness: the two revisions agree on the concrete sequence [1]. -/
theorem claim_C10_witness :
    V1.getStats [(1 : ℝ)] ⟨none, none⟩ =
      some (V2.getStats [JsVal.num 1] ⟨none, none⟩) :=
  claim_C10 [(1 : ℝ)] (by simp) ⟨none, none⟩

end TrendChart
